import Mathlib

/- A verification development for the connection code of
react-native-wifi-reborn: the iOS native module (WifiManager, Swift) and
the TypeScript wrapper (two revisions of index.ts).  The Swift module is
modelled as pure functions over an adapter environment that supplies the
results of the platform calls (NEHotspotConfigurationManager.apply and
the successive fetchCurrentSSID results); the TypeScript wrapper is
modelled the same way over the results of the native-module calls.
Strings are compared through their character lists so that all
definitions evaluate inside the kernel. -/

namespace RNWifi

/-- The WifiError enum of the Swift module, with its raw-value strings. -/
inductive WifiError
  | unavailableForOSVersion
  | invalid
  | invalidSSID
  | invalidSSIDPrefix
  | invalidPassphrase
  | userDenied
  | unableToConnect
  | locationPermissionDenied
  | locationPermissionRestricted
  | didNotFindNetwork
  | couldNotDetectSSID
  | timeout
deriving DecidableEq

/-- Raw value of a WifiError, exactly as in the Swift enum (note that
`timeout` has the raw value "timeoutOccurred"). -/
def WifiError.rawValue : WifiError → String
  | .unavailableForOSVersion => "unavailableForOSVersion"
  | .invalid => "invalid"
  | .invalidSSID => "invalidSSID"
  | .invalidSSIDPrefix => "invalidSSIDPrefix"
  | .invalidPassphrase => "invalidPassphrase"
  | .userDenied => "userDenied"
  | .unableToConnect => "unableToConnect"
  | .locationPermissionDenied => "locationPermissionDenied"
  | .locationPermissionRestricted => "locationPermissionRestricted"
  | .didNotFindNetwork => "didNotFindNetwork"
  | .couldNotDetectSSID => "couldNotDetectSSID"
  | .timeout => "timeoutOccurred"

/-- The platform error enum NEHotspotConfigurationError (an external
collaborator of the module, from the iOS SDK).  The Swift code matches
NSError codes against the raw values of these cases. -/
inductive NEHotspotConfigurationError
  | invalid
  | invalidSSID
  | invalidWPAPassphrase
  | invalidWEPPassphrase
  | invalidEAPSettings
  | invalidHS20Settings
  | invalidHS20DomainName
  | userDenied
  | internal
  | pending
  | systemConfiguration
  | unknown
  | joinOnceNotSupported
  | alreadyAssociated
  | applicationIsNotInForeground
  | invalidSSIDPrefix
deriving DecidableEq

/-- Raw values of NEHotspotConfigurationError as declared by the iOS SDK. -/
def NEHotspotConfigurationError.rawValue : NEHotspotConfigurationError → Int
  | .invalid => 0
  | .invalidSSID => 1
  | .invalidWPAPassphrase => 2
  | .invalidWEPPassphrase => 3
  | .invalidEAPSettings => 4
  | .invalidHS20Settings => 5
  | .invalidHS20DomainName => 6
  | .userDenied => 7
  | .internal => 8
  | .pending => 9
  | .systemConfiguration => 10
  | .unknown => 11
  | .joinOnceNotSupported => 12
  | .alreadyAssociated => 13
  | .applicationIsNotInForeground => 14
  | .invalidSSIDPrefix => 15

/-- `parseError` of the Swift module: maps an adapter-reported NSError code
to the raw-value string of a WifiError.  The Swift switch statement is
rendered as the equivalent if-chain; its default case returns
`unableToConnect`. -/
def parseError (code : Int) : String :=
  if code = NEHotspotConfigurationError.invalid.rawValue then
    WifiError.invalid.rawValue
  else if code = NEHotspotConfigurationError.invalidSSID.rawValue then
    WifiError.invalidSSID.rawValue
  else if code = NEHotspotConfigurationError.invalidSSIDPrefix.rawValue then
    WifiError.invalidSSIDPrefix.rawValue
  else if code = NEHotspotConfigurationError.invalidWPAPassphrase.rawValue
      ∨ code = NEHotspotConfigurationError.invalidWEPPassphrase.rawValue then
    WifiError.invalidPassphrase.rawValue
  else if code = NEHotspotConfigurationError.userDenied.rawValue then
    WifiError.userDenied.rawValue
  else
    WifiError.unableToConnect.rawValue

/-- The codes the `parseError` switch recognizes with a dedicated case
(everything else falls to the default `unableToConnect`). -/
def recognizedCodes : List Int :=
  [NEHotspotConfigurationError.invalid.rawValue,
   NEHotspotConfigurationError.invalidSSID.rawValue,
   NEHotspotConfigurationError.invalidSSIDPrefix.rawValue,
   NEHotspotConfigurationError.invalidWPAPassphrase.rawValue,
   NEHotspotConfigurationError.invalidWEPPassphrase.rawValue,
   NEHotspotConfigurationError.userDenied.rawValue]

/-- Swift `lowercased()` / JS `toLowerCase()`, applied characterwise (the
SSIDs compared by the source are plain text; Char.toLower covers the ASCII
letters). -/
def lowercased (s : String) : String := String.mk (s.data.map Char.toLower)

/-- Swift `s.hasPrefix(p)`, on character lists. -/
def hasPrefixStr (s p : String) : Bool := p.data.isPrefixOf s.data

/-- JS `String.prototype.includes` on character lists: `sub` occurs as a
contiguous substring of the second argument. -/
def listIncludes (sub : List Char) : List Char → Bool
  | [] => sub.isEmpty
  | c :: rest => sub.isPrefixOf (c :: rest) || listIncludes sub rest

/-- JS `s.includes(sub)`. -/
def strIncludes (s sub : String) : Bool := listIncludes sub.data s.data

/-- Result of one orchestration step as delivered to the caller:
`resolve(nil)` or `reject(code, message)`. -/
inductive Outcome
  | success
  | failure (code message : String)
deriving DecidableEq

/-- Result of `NEHotspotConfigurationManager.shared.apply`: the callback
receives `nil` (accepted) or an NSError with a platform code. -/
inductive ApplyResult
  | accepted
  | failed (code : Int) (message : String)
deriving DecidableEq

/-- The cipher of an NEHotspotConfiguration: `none` for the
open-network initializers, WPA/WEP chosen by the `isWEP` flag of the
passphrase initializers. -/
inductive SecretCipher
  | none
  | wpa
  | wep
deriving DecidableEq

/-- The NEHotspotConfiguration value the Swift code builds and hands to
the platform apply call.  `usesSSIDPrefixInit` records which family of
initializers was used (exact ssid vs ssidPrefix). -/
structure NEHotspotConfiguration where
  target : String
  usesSSIDPrefixInit : Bool
  passphrase : Option String
  secretCipher : SecretCipher
  joinOnce : Bool
deriving DecidableEq

/-- `NEHotspotConfiguration(ssid:)` - open network, exact ssid. -/
def NEHotspotConfiguration.initSSID (ssid : String) : NEHotspotConfiguration :=
  ⟨ssid, false, Option.none, SecretCipher.none, false⟩

/-- `NEHotspotConfiguration(ssid:passphrase:isWEP:)`. -/
def NEHotspotConfiguration.initSSIDPassphrase (ssid passphrase : String)
    (isWEP : Bool) : NEHotspotConfiguration :=
  ⟨ssid, false, Option.some passphrase,
   if isWEP then SecretCipher.wep else SecretCipher.wpa, false⟩

/-- `NEHotspotConfiguration(ssidPrefix:)` - open network, prefix target. -/
def NEHotspotConfiguration.initSSIDPrefix (ssidPrefix : String) :
    NEHotspotConfiguration :=
  ⟨ssidPrefix, true, Option.none, SecretCipher.none, false⟩

/-- `NEHotspotConfiguration(ssidPrefix:passphrase:isWEP:)`. -/
def NEHotspotConfiguration.initSSIDPrefixPassphrase
    (ssidPrefix passphrase : String) (isWEP : Bool) : NEHotspotConfiguration :=
  ⟨ssidPrefix, true, Option.some passphrase,
   if isWEP then SecretCipher.wep else SecretCipher.wpa, false⟩

/-- The adapter environment of one Swift connect call: the installed iOS
version (for the `#available` guards), the results of the successive
`fetchCurrentSSID` calls (index `i` is the result delivered to the i-th
fetch, `none` when no SSID could be detected), and the result of the
platform apply call for a given configuration. -/
structure Adapter where
  iosVersion : Nat
  fetch : Nat → Option String
  applyResult : NEHotspotConfiguration → ApplyResult

/-- The per-tick match decision of `verifyConnection` (the body of its
`fetchCurrentSSID` completion, Swift lines computing `isConnected`):
prefix mode compares lowercased strings with `hasPrefix`; exact mode is
case-sensitive equality against the expected SSID; with neither target a
present SSID counts as connected. -/
def isConnectedCheck (currentSSID expectedSSID : Option String)
    (isPrefix : Bool) (ssidPrefix : Option String) : Bool :=
  match isPrefix, ssidPrefix with
  | true, Option.some p =>
      match currentSSID with
      | Option.some s => hasPrefixStr (lowercased s) (lowercased p)
      | Option.none => false
  | _, _ =>
      match expectedSSID with
      | Option.some expected => currentSSID = Option.some expected
      | Option.none => currentSSID.isSome

/-- The timeout rejection message of `verifyConnection`:
"Unable to connect to \(expectedSSID ?? ssidPrefix ?? "network")". -/
def unableMessage (expectedSSID ssidPrefix : Option String) : String :=
  "Unable to connect to " ++ expectedSSID.getD (ssidPrefix.getD "network")

/-- `verifyConnection` of the Swift module.  Each invocation performs one
`fetchCurrentSSID` tick (tick number `currentRetry`, counted from 0); on a
match it resolves, on `currentRetry >= maxRetries` it rejects with
`unableToConnect`, otherwise it re-invokes itself after `interval` seconds
with `currentRetry + 1`.  The value returned is the delivered outcome
paired with the total number of fetch ticks performed. -/
def verifyConnection (fetch : Nat → Option String)
    (expectedSSID : Option String) (isPrefix : Bool)
    (ssidPrefix : Option String) (maxRetries : Nat) (interval : ℚ)
    (currentRetry : Nat) : Outcome × Nat :=
  let currentSSID := fetch currentRetry
  if isConnectedCheck currentSSID expectedSSID isPrefix ssidPrefix then
    (Outcome.success, currentRetry + 1)
  else if maxRetries ≤ currentRetry then
    (Outcome.failure WifiError.unableToConnect.rawValue
      (unableMessage expectedSSID ssidPrefix), currentRetry + 1)
  else
    verifyConnection fetch expectedSSID isPrefix ssidPrefix maxRetries
      interval (currentRetry + 1)
termination_by maxRetries + 1 - currentRetry

/-- `applyConfiguration` of the Swift module, from the point where the
platform apply callback fires: an error whose code is
`alreadyAssociated` resolves immediately; any other error rejects with
the `parseError` mapping; no error starts `verifyConnection` with
`maxRetries: 20, interval: 0.5` at retry 0.  Returns the outcome paired
with the number of verification ticks performed. -/
def applyConfiguration (res : ApplyResult) (fetch : Nat → Option String)
    (expectedSSID : Option String) (isPrefix : Bool)
    (ssidPrefix : Option String) : Outcome × Nat :=
  match res with
  | ApplyResult.failed code message =>
      if code = NEHotspotConfigurationError.alreadyAssociated.rawValue then
        (Outcome.success, 0)
      else
        (Outcome.failure (parseError code) message, 0)
  | ApplyResult.accepted =>
      verifyConnection fetch expectedSSID isPrefix ssidPrefix 20 (1/2) 0

/-- Observable result of one Swift connect entry point: the delivered
outcome, the configuration handed to the platform apply call (`none` when
`applyConfiguration` was never invoked), and the number of verification
ticks. -/
structure ConnectResult where
  outcome : Outcome
  appliedConfig : Option NEHotspotConfiguration
  verifyTicks : Nat
deriving DecidableEq

/-- `connectToProtectedSSIDOnce` of the Swift module: guard iOS 11, then
fetch the current SSID once (fetch tick 0); if it equals the requested
ssid resolve immediately, otherwise build the configuration (open when
the passphrase is empty), set `joinOnce` and run `applyConfiguration`
with `expectedSSID = ssid`.  Verification fetches continue the same fetch
stream after the short-circuit fetch. -/
def connectToProtectedSSIDOnce (a : Adapter) (ssid passphrase : String)
    (isWEP joinOnce : Bool) : ConnectResult :=
  if a.iosVersion < 11 then
    ⟨Outcome.failure WifiError.unavailableForOSVersion.rawValue
       "Requires iOS 11+", Option.none, 0⟩
  else
    let currentSSID := a.fetch 0
    if currentSSID = Option.some ssid then
      ⟨Outcome.success, Option.none, 0⟩
    else
      let config :=
        if passphrase.isEmpty then
          { NEHotspotConfiguration.initSSID ssid with joinOnce := joinOnce }
        else
          { NEHotspotConfiguration.initSSIDPassphrase ssid passphrase isWEP
              with joinOnce := joinOnce }
      let r := applyConfiguration (a.applyResult config)
        (fun i => a.fetch (i + 1)) (Option.some ssid) false Option.none
      ⟨r.1, Option.some config, r.2⟩

/-- `connectToProtectedSSID` of the Swift module: delegates to
`connectToProtectedSSIDOnce` with `joinOnce: false` (the `isHidden`
argument is accepted and ignored by the iOS source). -/
def connectToProtectedSSID (a : Adapter) (ssid passphrase : String)
    (isWEP _isHidden : Bool) : ConnectResult :=
  connectToProtectedSSIDOnce a ssid passphrase isWEP false

/-- `connectToSSID` of the Swift module: delegates to
`connectToProtectedSSID` with an empty passphrase, `isWEP: false`,
`isHidden: false`. -/
def connectToSSID (a : Adapter) (ssid : String) : ConnectResult :=
  connectToProtectedSSID a ssid "" false false

/-- `connectToProtectedSSIDPrefixOnce` of the Swift module: guard iOS 13,
build the prefix configuration (open when the passphrase is empty), set
`joinOnce` and run `applyConfiguration` with `expectedSSID = nil`,
`isPrefix = true`.  There is no already-connected short-circuit on this
path, so verification fetches start at tick 0 of the fetch stream. -/
def connectToProtectedSSIDPrefixOnce (a : Adapter)
    (ssidPrefix passphrase : String) (isWEP joinOnce : Bool) : ConnectResult :=
  if a.iosVersion < 13 then
    ⟨Outcome.failure WifiError.unavailableForOSVersion.rawValue
       "Requires iOS 13+", Option.none, 0⟩
  else
    let config :=
      if passphrase.isEmpty then
        { NEHotspotConfiguration.initSSIDPrefix ssidPrefix
            with joinOnce := joinOnce }
      else
        { NEHotspotConfiguration.initSSIDPrefixPassphrase ssidPrefix
            passphrase isWEP with joinOnce := joinOnce }
    let r := applyConfiguration (a.applyResult config) a.fetch Option.none
      true (Option.some ssidPrefix)
    ⟨r.1, Option.some config, r.2⟩

/-- `connectToProtectedSSIDPrefix` of the Swift module: delegates to
`connectToProtectedSSIDPrefixOnce` with `joinOnce: false`. -/
def connectToProtectedSSIDPrefix (a : Adapter) (ssidPrefix passphrase : String)
    (isWEP : Bool) : ConnectResult :=
  connectToProtectedSSIDPrefixOnce a ssidPrefix passphrase isWEP false

/-- `Platform.OS` of the TypeScript wrapper. -/
inductive Platform
  | android
  | ios
deriving DecidableEq

/-- Results of the native-module calls a `connectToIoTNetwork` /
`disconnectFromIoTNetwork` run can await, one injected result per call
site (`Except.error` models a rejected promise).  The connect-call
variants (connectToProtectedWifiSSID / connectToProtectedSSID /
connectToSSIDPrefix / connectToProtectedSSIDPrefix /
connectToProtectedSSIDOnce / connectToProtectedSSIDPrefixOnce) are folded
into the single `connectR` result, since which variant runs never affects
the wrapper's control flow.  `getCurrentWifiSSIDR` resolves with the SSID
(`none` models a platform resolving without a detectable value, which the
wrapper guards with `?.`). -/
structure NativeEnv where
  isRemoveWifiNetworkR : Except String Unit
  connectR : Except String Unit
  bindR : Except String Unit
  unbindR : Except String Unit
  getCurrentWifiSSIDR : Except String (Option String)
  disconnectR : Except String Unit
  disconnectFromSSIDR : Except String Unit

/-- Result of a wrapper operation: the promise outcome together with the
value of the module-level `isIoTNetworkBound` flag when the promise
settles. -/
structure IoTResult where
  outcome : Except String Unit
  bound : Bool

/-- The `connected` decision of `connectToIoTNetwork` (both revisions):
`usePrefix ? currentSSID?.toLowerCase().includes(ssid.toLowerCase())
           : currentSSID === ssid`. -/
def iotConnected (currentSSID : Option String) (ssid : String)
    (usePrefix : Bool) : Bool :=
  if usePrefix then
    match currentSSID with
    | Option.some s => strIncludes (lowercased s) (lowercased ssid)
    | Option.none => false
  else
    currentSSID = Option.some ssid

/-- The rejection message of a failed IoT connect:
"Failed to connect to IoT network. Expected: \(ssid), Got: \(currentSSID)". -/
def iotFailMessage (ssid : String) (currentSSID : Option String) : String :=
  "Failed to connect to IoT network. Expected: " ++ ssid ++ ", Got: "
    ++ currentSSID.getD "undefined"

/-- `connectToIoTNetwork` of src/src/index.ts.  Control flow: on Android
remove any existing configuration (result ignored) and connect; on iOS
connect through the variant chosen by `usePrefix`/password; a rejected
connect propagates.  On Android, bind traffic and set the bound flag only
when the bind call succeeds (a failure is logged and ignored); iOS never
touches the flag here.  Then fetch the current SSID (a rejection
propagates with the flag as-is); on a mismatch, if Android and bound, try
to unbind and clear the flag inside the same try (so a throwing unbind
leaves the flag set), then reject. -/
def connectToIoTNetworkV1 (p : Platform) (env : NativeEnv) (ssid : String)
    (usePrefix : Bool) (bound0 : Bool) : IoTResult :=
  let _ := if p = Platform.android then Option.some env.isRemoveWifiNetworkR
           else Option.none
  match env.connectR with
  | Except.error e => ⟨Except.error e, bound0⟩
  | Except.ok _ =>
    let bound1 :=
      if p = Platform.android then
        match env.bindR with
        | Except.ok _ => true
        | Except.error _ => bound0
      else bound0
    match env.getCurrentWifiSSIDR with
    | Except.error e => ⟨Except.error e, bound1⟩
    | Except.ok currentSSID =>
      if iotConnected currentSSID ssid usePrefix then
        ⟨Except.ok (), bound1⟩
      else
        let boundFinal :=
          if p = Platform.android ∧ bound1 then
            match env.unbindR with
            | Except.ok _ => false
            | Except.error _ => bound1
          else bound1
        ⟨Except.error (iotFailMessage ssid currentSSID), boundFinal⟩

/-- `connectToIoTNetwork` of the unnamed revision (src/unnamed/part_004).
Differences from the index.ts revision: no prior configuration removal;
iOS sets the bound flag unconditionally after a successful connect; and
the mismatch cleanup clears the bound flag unconditionally after the
best-effort unbind, so the flag is false whenever the mismatch rejection
is thrown. -/
def connectToIoTNetworkV2 (p : Platform) (env : NativeEnv) (ssid : String)
    (usePrefix : Bool) (bound0 : Bool) : IoTResult :=
  match env.connectR with
  | Except.error e => ⟨Except.error e, bound0⟩
  | Except.ok _ =>
    let bound1 :=
      match p with
      | Platform.android =>
        match env.bindR with
        | Except.ok _ => true
        | Except.error _ => bound0
      | Platform.ios => true
    match env.getCurrentWifiSSIDR with
    | Except.error e => ⟨Except.error e, bound1⟩
    | Except.ok currentSSID =>
      if iotConnected currentSSID ssid usePrefix then
        ⟨Except.ok (), bound1⟩
      else
        let _ := if p = Platform.android ∧ bound1 then
                   Option.some env.unbindR
                 else Option.none
        ⟨Except.error (iotFailMessage ssid currentSSID), false⟩

/-- `disconnectFromIoTNetwork` of src/src/index.ts: on Android, when the
flag is set, try to unbind and clear the flag inside the try (a rejection
is logged, leaving the flag set), then best-effort disconnect; iOS does
nothing.  Every underlying result is caught, so the promise always
resolves. -/
def disconnectFromIoTNetworkV1 (p : Platform) (env : NativeEnv)
    (bound0 : Bool) : IoTResult :=
  match p with
  | Platform.android =>
    let bound1 :=
      if bound0 then
        match env.unbindR with
        | Except.ok _ => false
        | Except.error _ => bound0
      else bound0
    let _ := env.disconnectR
    ⟨Except.ok (), bound1⟩
  | Platform.ios => ⟨Except.ok (), bound0⟩

/-- `disconnectFromIoTNetwork` of the unnamed revision
(src/unnamed/part_004): Android best-effort unbinds (when the flag is
set) and best-effort disconnects; iOS best-effort fetches the current
SSID and removes its configuration; afterwards the bound flag is cleared
unconditionally and the promise resolves.  Every underlying result is
caught. -/
def disconnectFromIoTNetworkV2 (p : Platform) (env : NativeEnv)
    (bound0 : Bool) : IoTResult :=
  match p with
  | Platform.android =>
    let _ := if bound0 then Option.some env.unbindR else Option.none
    let _ := env.disconnectR
    ⟨Except.ok (), false⟩
  | Platform.ios =>
    let _ := env.getCurrentWifiSSIDR.map (fun s =>
      match s with
      | Option.some _ => Option.some env.disconnectFromSSIDR
      | Option.none => Option.none)
    ⟨Except.ok (), false⟩

/-- A concrete adapter: iOS 16, the current network identity is always
"IoT-Device-42", and the platform apply call reports userDenied. -/
def sampleAdapter : Adapter where
  iosVersion := 16
  fetch := fun _ => Option.some "IoT-Device-42"
  applyResult := fun _ =>
    ApplyResult.failed NEHotspotConfigurationError.userDenied.rawValue "denied"

/-- A concrete native environment where every call succeeds except the
traffic unbind, and the current SSID reads "HomeWifi". -/
def envUnbindThrows : NativeEnv where
  isRemoveWifiNetworkR := Except.ok ()
  connectR := Except.ok ()
  bindR := Except.ok ()
  unbindR := Except.error "unbind failed"
  getCurrentWifiSSIDR := Except.ok (Option.some "HomeWifi")
  disconnectR := Except.ok ()
  disconnectFromSSIDR := Except.ok ()

/-- A concrete native environment where connect and bind succeed but the
identity fetch rejects. -/
def envFetchThrows : NativeEnv where
  isRemoveWifiNetworkR := Except.ok ()
  connectR := Except.ok ()
  bindR := Except.ok ()
  unbindR := Except.ok ()
  getCurrentWifiSSIDR := Except.error "couldNotDetectSSID"
  disconnectR := Except.ok ()
  disconnectFromSSIDR := Except.ok ()

/-- A concrete native environment where every call succeeds and the
current SSID reads "Home-IoT-42" (an identity that contains, but does not
start with, "IoT"). -/
def envContainsIoT : NativeEnv where
  isRemoveWifiNetworkR := Except.ok ()
  connectR := Except.ok ()
  bindR := Except.ok ()
  unbindR := Except.ok ()
  getCurrentWifiSSIDR := Except.ok (Option.some "Home-IoT-42")
  disconnectR := Except.ok ()
  disconnectFromSSIDR := Except.ok ()

/- Helper lemmas about the verification poller. -/

/-- Unfolding lemma for one poller tick. -/
theorem verifyConnection_unfold (fetch : Nat → Option String)
    (expectedSSID : Option String) (isPrefix : Bool)
    (ssidPrefix : Option String) (maxRetries : Nat) (interval : ℚ)
    (currentRetry : Nat) :
    verifyConnection fetch expectedSSID isPrefix ssidPrefix maxRetries
      interval currentRetry =
      if isConnectedCheck (fetch currentRetry) expectedSSID isPrefix
          ssidPrefix then
        (Outcome.success, currentRetry + 1)
      else if maxRetries ≤ currentRetry then
        (Outcome.failure WifiError.unableToConnect.rawValue
          (unableMessage expectedSSID ssidPrefix), currentRetry + 1)
      else
        verifyConnection fetch expectedSSID isPrefix ssidPrefix maxRetries
          interval (currentRetry + 1) := by
  rw [verifyConnection]

/-- If no tick up to `maxRetries` matches, the poller started at tick `c`
times out after tick `maxRetries`, having performed `maxRetries + 1`
fetches in total. -/
theorem verifyConnection_timeout (fetch : Nat → Option String)
    (expectedSSID : Option String) (isPrefix : Bool)
    (ssidPrefix : Option String) (maxRetries : Nat) (interval : ℚ)
    (hf : ∀ i, i ≤ maxRetries →
      isConnectedCheck (fetch i) expectedSSID isPrefix ssidPrefix = false) :
    ∀ d c, maxRetries = c + d →
    verifyConnection fetch expectedSSID isPrefix ssidPrefix maxRetries
      interval c =
      (Outcome.failure WifiError.unableToConnect.rawValue
        (unableMessage expectedSSID ssidPrefix), maxRetries + 1) := by
  intro d
  induction d with
  | zero =>
    intro c hc
    rw [verifyConnection_unfold]
    rw [if_neg (by simp [hf c (by omega)])]
    rw [if_pos (by omega)]
    have hcN : c = maxRetries := by omega
    rw [hcN]
  | succ d ih =>
    intro c hc
    rw [verifyConnection_unfold]
    rw [if_neg (by simp [hf c (by omega)])]
    rw [if_neg (by omega)]
    exact ih (c + 1) (by omega)

/-- If the first matching tick is tick `k ≤ maxRetries`, the poller
started at tick `c ≤ k` resolves after exactly `k + 1` fetches. -/
theorem verifyConnection_match (fetch : Nat → Option String)
    (expectedSSID : Option String) (isPrefix : Bool)
    (ssidPrefix : Option String) (maxRetries : Nat) (interval : ℚ)
    (k : Nat) (hk : k ≤ maxRetries)
    (hmatch : isConnectedCheck (fetch k) expectedSSID isPrefix
      ssidPrefix = true)
    (hbefore : ∀ i, i < k →
      isConnectedCheck (fetch i) expectedSSID isPrefix ssidPrefix = false) :
    ∀ d c, k = c + d →
    verifyConnection fetch expectedSSID isPrefix ssidPrefix maxRetries
      interval c = (Outcome.success, k + 1) := by
  intro d
  induction d with
  | zero =>
    intro c hc
    have hck : c = k := by omega
    subst hck
    rw [verifyConnection_unfold, if_pos hmatch]
  | succ d ih =>
    intro c hc
    rw [verifyConnection_unfold]
    rw [if_neg (by simp [hbefore c (by omega)])]
    rw [if_neg (by omega)]
    exact ih (c + 1) (by omega)

/-- `listIncludes` decides list containment (`List.IsInfix`). -/
theorem listIncludes_iff_infix (sub l : List Char) :
    listIncludes sub l = true ↔ sub <:+: l := by
  induction l with
  | nil =>
    simp [listIncludes, List.isEmpty_iff]
  | cons c rest ih =>
    simp [listIncludes, Bool.or_eq_true, List.isPrefixOf_iff_prefix, ih,
      List.infix_cons_iff]

/-- C1 (corrected): when the platform apply call reports the
alreadyAssociated failure code, the orchestration resolves with success
and never with a failure, but the success is reached directly - with
zero verification ticks - and not via the verification path. -/
theorem C1_alreadyAssociated_direct_success (fetch : Nat → Option String)
    (expectedSSID : Option String) (isPrefix : Bool)
    (ssidPrefix : Option String) (message : String) :
    applyConfiguration
      (ApplyResult.failed
        NEHotspotConfigurationError.alreadyAssociated.rawValue message)
      fetch expectedSSID isPrefix ssidPrefix = (Outcome.success, 0) := by
  simp [applyConfiguration]

/-- C1 counterexample: apply reports alreadyAssociated while the adapter
never reports a matching identity.  The run resolves success after zero
poller ticks, although the verification path would not have succeeded -
so the success is not reached via the verification path, refuting the
claim that the poller runs before success is reported. -/
theorem C1_counterexample :
    applyConfiguration
      (ApplyResult.failed
        NEHotspotConfigurationError.alreadyAssociated.rawValue
        "already associated")
      (fun _ => Option.none) (Option.some "IoT-Device-42") false Option.none
      = (Outcome.success, 0)
    ∧ (verifyConnection (fun _ => Option.none) (Option.some "IoT-Device-42")
        false Option.none 20 (1/2) 0).1 ≠ Outcome.success := by
  refine ⟨by simp [applyConfiguration], ?_⟩
  have h := verifyConnection_timeout (fun _ => Option.none)
    (Option.some "IoT-Device-42") false Option.none 20 (1/2)
    (fun i _ => by simp [isConnectedCheck]) 20 0 rfl
  rw [h]
  simp

/-- C2 (corrected): with `maxRetries = N` the poller performs exactly
`N + 1` fetch ticks and then rejects when no tick ever matches (the claim
said exactly N); when the first matching fetch is tick index `k ≤ N`
(the (k+1)-st fetch), exactly `k + 1` fetches occur; and the policy
installed by applyConfiguration is `maxRetries = 20` with
`interval = 1/2` second (500 ms). -/
theorem C2_poller_tick_counts :
    (∀ fetch expectedSSID isPrefix ssidPrefix maxRetries (interval : ℚ),
      (∀ i, i ≤ maxRetries →
        isConnectedCheck (fetch i) expectedSSID isPrefix ssidPrefix
          = false) →
      verifyConnection fetch expectedSSID isPrefix ssidPrefix maxRetries
        interval 0 =
        (Outcome.failure WifiError.unableToConnect.rawValue
          (unableMessage expectedSSID ssidPrefix), maxRetries + 1))
  ∧ (∀ fetch expectedSSID isPrefix ssidPrefix maxRetries (interval : ℚ) k,
      k ≤ maxRetries →
      isConnectedCheck (fetch k) expectedSSID isPrefix ssidPrefix = true →
      (∀ i, i < k →
        isConnectedCheck (fetch i) expectedSSID isPrefix ssidPrefix
          = false) →
      verifyConnection fetch expectedSSID isPrefix ssidPrefix maxRetries
        interval 0 = (Outcome.success, k + 1))
  ∧ (∀ fetch expectedSSID isPrefix ssidPrefix,
      applyConfiguration ApplyResult.accepted fetch expectedSSID isPrefix
        ssidPrefix =
        verifyConnection fetch expectedSSID isPrefix ssidPrefix 20
          (1/2) 0) := by
  refine ⟨?_, ?_, ?_⟩
  · intro fetch e ip sp N iv hf
    exact verifyConnection_timeout fetch e ip sp N iv hf N 0 (by omega)
  · intro fetch e ip sp N iv k hk hm hb
    exact verifyConnection_match fetch e ip sp N iv k hk hm hb k 0 (by omega)
  · intro fetch e ip sp
    rfl

/-- C2 witness: a never-matching run with maxRetries = 1 rejects after 2
ticks; a run whose first match is tick index 1 resolves after 2 ticks. -/
theorem C2_witness :
    verifyConnection (fun _ => Option.none) (Option.some "A") false
      Option.none 1 (1/2) 0 =
      (Outcome.failure WifiError.unableToConnect.rawValue
        (unableMessage (Option.some "A") Option.none), 2)
    ∧ verifyConnection (fun i => if i = 1 then Option.some "A"
        else Option.none) (Option.some "A") false Option.none 5 (1/2) 0 =
      (Outcome.success, 2) := by
  constructor
  · exact C2_poller_tick_counts.1 _ _ _ _ 1 _
      (fun i _ => by simp [isConnectedCheck])
  · exact C2_poller_tick_counts.2.1 _ _ _ _ 5 _ 1 (by omega)
      (by simp [isConnectedCheck])
      (fun i hi => by
        have hi0 : i = 0 := by omega
        subst hi0
        simp [isConnectedCheck])

/-- C2 counterexample: with maxRetries = 2 and an adapter that never
matches, the poller performs 3 fetch ticks, not the 2 the claim
predicts. -/
theorem C2_counterexample :
    verifyConnection (fun _ => Option.none) (Option.some "A") false
      Option.none 2 (1/2) 0 =
      (Outcome.failure WifiError.unableToConnect.rawValue
        (unableMessage (Option.some "A") Option.none), 3)
    ∧ (3 : Nat) ≠ 2 := by
  refine ⟨?_, by omega⟩
  exact verifyConnection_timeout (fun _ => Option.none) (Option.some "A")
    false Option.none 2 (1/2) (fun i _ => by simp [isConnectedCheck]) 2 0 rfl

/-- C8 (confirmed): parseError is a total map from adapter-reported codes
to canonical error kinds; each recognized code maps to its dedicated
kind, every unrecognized code maps to unableToConnect, and the result is
always one of the six canonical kinds (never dropped). -/
theorem C8_parseError_total :
    (∀ code : Int, code ∉ recognizedCodes →
      parseError code = WifiError.unableToConnect.rawValue)
  ∧ parseError NEHotspotConfigurationError.invalid.rawValue
      = WifiError.invalid.rawValue
  ∧ parseError NEHotspotConfigurationError.invalidSSID.rawValue
      = WifiError.invalidSSID.rawValue
  ∧ parseError NEHotspotConfigurationError.invalidSSIDPrefix.rawValue
      = WifiError.invalidSSIDPrefix.rawValue
  ∧ parseError NEHotspotConfigurationError.invalidWPAPassphrase.rawValue
      = WifiError.invalidPassphrase.rawValue
  ∧ parseError NEHotspotConfigurationError.invalidWEPPassphrase.rawValue
      = WifiError.invalidPassphrase.rawValue
  ∧ parseError NEHotspotConfigurationError.userDenied.rawValue
      = WifiError.userDenied.rawValue
  ∧ (∀ code : Int, parseError code ∈
      [WifiError.invalid.rawValue, WifiError.invalidSSID.rawValue,
       WifiError.invalidSSIDPrefix.rawValue,
       WifiError.invalidPassphrase.rawValue,
       WifiError.userDenied.rawValue,
       WifiError.unableToConnect.rawValue]) := by
  refine ⟨?_, by decide, by decide, by decide, by decide, by decide,
    by decide, ?_⟩
  · intro code hc
    simp [recognizedCodes, NEHotspotConfigurationError.rawValue] at hc
    obtain ⟨h0, h1, h15, h2, h3, h7⟩ := hc
    simp [parseError, NEHotspotConfigurationError.rawValue, h0, h1, h15,
      h2, h3, h7]
  · intro code
    unfold parseError
    split_ifs <;> simp

/-- C8 witness: the unrecognized code 999 maps to unableToConnect. -/
theorem C8_witness : parseError 999 = WifiError.unableToConnect.rawValue :=
  C8_parseError_total.1 999 (by decide)

/-- C10 (confirmed): for every adapter environment and ssid, the
open-network variant connectToSSID is observably identical (same
outcome, same applied configuration, same verification ticks) to
connectToProtectedSSID with an empty passphrase, isWEP false and
isHidden false - and both equal the underlying
connectToProtectedSSIDOnce call with joinOnce false. -/
theorem C10_connectToSSID_equiv (a : Adapter) (ssid : String) :
    connectToSSID a ssid = connectToProtectedSSID a ssid "" false false
    ∧ connectToSSID a ssid
      = connectToProtectedSSIDOnce a ssid "" false false :=
  ⟨rfl, rfl⟩

/-- C4 (corrected): the already-connected short-circuit exists only on
the exact-match path.  If the current identity equals the requested ssid
when connectToProtectedSSIDOnce runs (iOS at least 11), it resolves with
success without invoking applyConfiguration; the prefix variant (iOS at
least 13) always hands a configuration to applyConfiguration, with no
short-circuit, even when the current identity already satisfies the
prefix rule. -/
theorem C4_already_connected_short_circuit :
    (∀ a ssid passphrase isWEP joinOnce, 11 ≤ a.iosVersion →
      a.fetch 0 = Option.some ssid →
      connectToProtectedSSIDOnce a ssid passphrase isWEP joinOnce
        = ⟨Outcome.success, Option.none, 0⟩)
  ∧ (∀ a ssidPrefix passphrase isWEP joinOnce, 13 ≤ a.iosVersion →
      (connectToProtectedSSIDPrefixOnce a ssidPrefix passphrase isWEP
        joinOnce).appliedConfig.isSome = true) := by
  constructor
  · intro a ssid passphrase isWEP joinOnce hv hf
    unfold connectToProtectedSSIDOnce
    rw [if_neg (by omega), if_pos hf]
  · intro a ssidPrefix passphrase isWEP joinOnce hv
    unfold connectToProtectedSSIDPrefixOnce
    rw [if_neg (by omega)]
    simp

/-- C4 witness: on the sample adapter (already on "IoT-Device-42") the
exact variant short-circuits to success; the prefix variant applies a
configuration. -/
theorem C4_witness :
    connectToProtectedSSIDOnce sampleAdapter "IoT-Device-42" "pw" false
      false = ⟨Outcome.success, Option.none, 0⟩
    ∧ (connectToProtectedSSIDPrefixOnce sampleAdapter "IoT" "" false
        false).appliedConfig.isSome = true := by
  constructor
  · exact C4_already_connected_short_circuit.1 sampleAdapter
      "IoT-Device-42" "pw" false false (by decide) (by decide)
  · exact C4_already_connected_short_circuit.2 sampleAdapter "IoT" ""
      false false (by decide)

/-- C4 counterexample: the sample adapter's current identity
"IoT-Device-42" already satisfies the prefix rule for "IoT", yet the
prefix connect variant still invokes applyConfiguration (a configuration
is handed to the platform) and here does not resolve with success - the
claimed short-circuit does not exist in PrefixCaseInsensitive mode. -/
theorem C4_counterexample :
    isConnectedCheck (sampleAdapter.fetch 0) Option.none true
      (Option.some "IoT") = true
    ∧ (connectToProtectedSSIDPrefixOnce sampleAdapter "IoT" "" false
        false).appliedConfig
      = Option.some { NEHotspotConfiguration.initSSIDPrefix "IoT" with
          joinOnce := false }
    ∧ (connectToProtectedSSIDPrefixOnce sampleAdapter "IoT" "" false
        false).outcome ≠ Outcome.success :=
  ⟨by decide, by decide, by decide⟩

/-- C5 (confirmed): every connect call with an empty passphrase hands the
platform an open-network configuration whose cipher is None, for both
the exact and the prefix variant, regardless of the isWEP flag. -/
theorem C5_empty_secret_open_config :
    (∀ a ssid isWEP joinOnce c,
      (connectToProtectedSSIDOnce a ssid "" isWEP joinOnce).appliedConfig
        = Option.some c → c.secretCipher = SecretCipher.none)
  ∧ (∀ a ssidPrefix isWEP joinOnce c,
      (connectToProtectedSSIDPrefixOnce a ssidPrefix "" isWEP
        joinOnce).appliedConfig
        = Option.some c → c.secretCipher = SecretCipher.none) := by
  constructor
  · intro a ssid isWEP joinOnce c hc
    unfold connectToProtectedSSIDOnce at hc
    by_cases h11 : a.iosVersion < 11
    · rw [if_pos h11] at hc
      simp at hc
    · rw [if_neg h11] at hc
      by_cases hsc : a.fetch 0 = Option.some ssid
      · rw [if_pos hsc] at hc
        simp at hc
      · rw [if_neg hsc] at hc
        simp [show ("" : String).isEmpty = true from rfl,
          NEHotspotConfiguration.initSSID] at hc
        simp [← hc]
  · intro a ssidPrefix isWEP joinOnce c hc
    unfold connectToProtectedSSIDPrefixOnce at hc
    by_cases h13 : a.iosVersion < 13
    · rw [if_pos h13] at hc
      simp at hc
    · rw [if_neg h13] at hc
      simp [show ("" : String).isEmpty = true from rfl,
        NEHotspotConfiguration.initSSIDPrefix] at hc
      simp [← hc]

/-- C5 witness: the prefix variant with empty passphrase and isWEP true
applies an open configuration with cipher None. -/
theorem C5_witness :
    (connectToProtectedSSIDPrefixOnce sampleAdapter "IoT" "" true
      true).appliedConfig
      = Option.some { NEHotspotConfiguration.initSSIDPrefix "IoT" with
          joinOnce := true }
    ∧ ({ NEHotspotConfiguration.initSSIDPrefix "IoT" with
          joinOnce := true } : NEHotspotConfiguration).secretCipher
        = SecretCipher.none := by
  refine ⟨by decide, ?_⟩
  exact C5_empty_secret_open_config.2 sampleAdapter "IoT" true true _
    (by decide)

/-- C6 (confirmed): the per-tick match decision is case-sensitive
equality in Exact mode; in prefix mode it requires a present identity
whose lowercased form starts with the lowercased target; an absent
identity is no-match in both modes, and a non-matching tick below the
retry bound just polls again (it never delivers an outcome of its
own). -/
theorem C6_tick_match_decision :
    (∀ current target,
      isConnectedCheck current (Option.some target) false Option.none
          = true
        ↔ current = Option.some target)
  ∧ (∀ current target,
      isConnectedCheck current Option.none true (Option.some target)
          = true
        ↔ ∃ s, current = Option.some s
            ∧ hasPrefixStr (lowercased s) (lowercased target) = true)
  ∧ (∀ target,
      isConnectedCheck Option.none (Option.some target) false Option.none
          = false
      ∧ isConnectedCheck Option.none Option.none true (Option.some target)
          = false)
  ∧ (∀ fetch expectedSSID isPrefix ssidPrefix maxRetries (interval : ℚ) c,
      isConnectedCheck (fetch c) expectedSSID isPrefix ssidPrefix
          = false →
      c < maxRetries →
      verifyConnection fetch expectedSSID isPrefix ssidPrefix maxRetries
          interval c
        = verifyConnection fetch expectedSSID isPrefix ssidPrefix
            maxRetries interval (c + 1)) := by
  refine ⟨?_, ?_, ?_, ?_⟩
  · intro current target
    cases current <;> simp [isConnectedCheck]
  · intro current target
    cases current <;> simp [isConnectedCheck]
  · intro target
    exact ⟨by simp [isConnectedCheck], by simp [isConnectedCheck]⟩
  · intro fetch e ip sp N iv c hcheck hc
    rw [verifyConnection_unfold]
    rw [if_neg (by simp [hcheck]), if_neg (by omega)]

/-- C6 witness: a tick that observes no identity below the bound
continues polling. -/
theorem C6_witness :
    verifyConnection (fun _ => Option.none) (Option.some "IoT-Device-42")
      false Option.none 5 (1/2) 0
    = verifyConnection (fun _ => Option.none) (Option.some "IoT-Device-42")
      false Option.none 5 (1/2) 1 :=
  C6_tick_match_decision.2.2.2 _ _ _ _ 5 _ 0
    (by simp [isConnectedCheck]) (by omega)

/-- When connect and the identity fetch both resolve, the outcome of the
part_004 connectToIoTNetwork is decided exactly by the `connected`
check. -/
theorem connectToIoTNetworkV2_outcome (p : Platform) (env : NativeEnv)
    (ssid : String) (usePrefix bound0 : Bool) (s : Option String)
    (hconn : env.connectR = Except.ok ())
    (hget : env.getCurrentWifiSSIDR = Except.ok s) :
    (connectToIoTNetworkV2 p env ssid usePrefix bound0).outcome
      = if iotConnected s ssid usePrefix then Except.ok ()
        else Except.error (iotFailMessage ssid s) := by
  unfold connectToIoTNetworkV2
  rw [hconn, hget]
  by_cases hm : iotConnected s ssid usePrefix = true <;> simp [hm]

/-- When connect and the identity fetch both resolve, the outcome of the
index.ts connectToIoTNetwork is decided exactly by the `connected`
check. -/
theorem connectToIoTNetworkV1_outcome (p : Platform) (env : NativeEnv)
    (ssid : String) (usePrefix bound0 : Bool) (s : Option String)
    (hconn : env.connectR = Except.ok ())
    (hget : env.getCurrentWifiSSIDR = Except.ok s) :
    (connectToIoTNetworkV1 p env ssid usePrefix bound0).outcome
      = if iotConnected s ssid usePrefix then Except.ok ()
        else Except.error (iotFailMessage ssid s) := by
  unfold connectToIoTNetworkV1
  rw [hconn, hget]
  by_cases hm : iotConnected s ssid usePrefix = true <;> simp [hm]

/-- C3 (corrected): after entering verification the binding flag at the
moment a failure is reported behaves as follows.  Part (1): in the
part_004 revision, every verification-mismatch failure (the identity
fetch resolved but did not match) is reported with the flag false,
including runs in which the unbind call throws.  Part (2), the exact
boundary of that guarantee: when the identity fetch itself rejects after
the flag was set, the part_004 revision reports the failure with the
flag still true, on both platforms - so the original every-failure
invariant fails even in part_004, and the index.ts revision additionally
leaves the flag true when the unbind throws on the mismatch path (see
the counterexample for both violations). -/
theorem C3_binding_flag_after_verification_entry :
    (∀ (p : Platform) (env : NativeEnv) (ssid : String)
        (usePrefix bound0 : Bool) (s : Option String),
      env.connectR = Except.ok () →
      env.getCurrentWifiSSIDR = Except.ok s →
      iotConnected s ssid usePrefix = false →
      connectToIoTNetworkV2 p env ssid usePrefix bound0
        = ⟨Except.error (iotFailMessage ssid s), false⟩)
  ∧ (∀ (p : Platform) (env : NativeEnv) (ssid : String)
        (usePrefix bound0 : Bool) (e : String),
      env.connectR = Except.ok () →
      env.bindR = Except.ok () →
      env.getCurrentWifiSSIDR = Except.error e →
      connectToIoTNetworkV2 p env ssid usePrefix bound0
        = ⟨Except.error e, true⟩) := by
  constructor
  · intro p env ssid usePrefix bound0 s hconn hget hm
    unfold connectToIoTNetworkV2
    rw [hconn, hget]
    simp [hm]
  · intro p env ssid usePrefix bound0 e hconn hbind hget
    unfold connectToIoTNetworkV2
    rw [hconn, hget]
    cases p <;> simp [hbind]

/-- C3 witness: part_004 on Android.  With a successful bind, a
non-matching identity and a THROWING unbind the failure is reported with
the flag false; with a REJECTING identity fetch the failure is reported
with the flag still true. -/
theorem C3_witness :
    connectToIoTNetworkV2 Platform.android envUnbindThrows "IoT-Device-42"
      false false
      = ⟨Except.error (iotFailMessage "IoT-Device-42"
          (Option.some "HomeWifi")), false⟩
    ∧ connectToIoTNetworkV2 Platform.android envFetchThrows "IoT-Device-42"
      false false
      = ⟨Except.error "couldNotDetectSSID", true⟩ :=
  ⟨C3_binding_flag_after_verification_entry.1 Platform.android
      envUnbindThrows "IoT-Device-42" false false (Option.some "HomeWifi")
      rfl rfl (by decide),
   C3_binding_flag_after_verification_entry.2 Platform.android
      envFetchThrows "IoT-Device-42" false false "couldNotDetectSSID"
      rfl rfl rfl⟩

/-- C3 counterexample, refuting the original claim in BOTH revisions.
First conjunct: index.ts on Android - bind succeeds, verification
observes the non-matching "HomeWifi", the unbind throws - reports the
failure while the binding flag is still true.  Second conjunct: part_004
on Android - bind succeeds, then the unguarded identity fetch rejects -
reports the failure while the binding flag is still true. -/
theorem C3_counterexample :
    ((connectToIoTNetworkV1 Platform.android envUnbindThrows
        "IoT-Device-42" false false).outcome
      = Except.error (iotFailMessage "IoT-Device-42"
          (Option.some "HomeWifi"))
    ∧ (connectToIoTNetworkV1 Platform.android envUnbindThrows
        "IoT-Device-42" false false).bound = true)
    ∧ ((connectToIoTNetworkV2 Platform.android envFetchThrows
        "IoT-Device-42" false false).outcome
      = Except.error "couldNotDetectSSID"
    ∧ (connectToIoTNetworkV2 Platform.android envFetchThrows
        "IoT-Device-42" false false).bound = true) :=
  ⟨⟨rfl, rfl⟩, ⟨rfl, rfl⟩⟩

/-- C7 (corrected): in prefix mode, both revisions of the IoT connect
verification accept the observed identity iff, compared
case-insensitively, it CONTAINS the requested string (JS includes) - a
broader containment, not the starts-with acceptance the claim states. -/
theorem C7_iot_verification_containment (p : Platform) (env : NativeEnv)
    (ssid : String) (bound0 : Bool) (s : String) :
    env.connectR = Except.ok () →
    env.getCurrentWifiSSIDR = Except.ok (Option.some s) →
    (((connectToIoTNetworkV2 p env ssid true bound0).outcome
        = Except.ok ())
      ↔ (lowercased ssid).data <:+: (lowercased s).data)
    ∧ (((connectToIoTNetworkV1 p env ssid true bound0).outcome
        = Except.ok ())
      ↔ (lowercased ssid).data <:+: (lowercased s).data) := by
  intro hconn hget
  have hiff : iotConnected (Option.some s) ssid true = true ↔
      (lowercased ssid).data <:+: (lowercased s).data := by
    simpa [iotConnected, strIncludes] using
      listIncludes_iff_infix (lowercased ssid).data (lowercased s).data
  have h2 := connectToIoTNetworkV2_outcome p env ssid true bound0
    (Option.some s) hconn hget
  have h1 := connectToIoTNetworkV1_outcome p env ssid true bound0
    (Option.some s) hconn hget
  have key : ∀ (b : Bool) (m : String),
      ((if b = true then (Except.ok () : Except String Unit)
        else Except.error m) = Except.ok ()) ↔ b = true := by
    intro b m
    cases b <;> simp
  rw [h1, h2, key]
  exact ⟨hiff, hiff⟩

/-- C7 witness: with observed identity "Home-IoT-42" and request "IoT",
acceptance coincides with case-insensitive containment in both
revisions. -/
theorem C7_witness :
    (((connectToIoTNetworkV2 Platform.ios envContainsIoT "IoT" true
        false).outcome = Except.ok ())
      ↔ (lowercased "IoT").data <:+: (lowercased "Home-IoT-42").data)
    ∧ (((connectToIoTNetworkV1 Platform.ios envContainsIoT "IoT" true
        false).outcome = Except.ok ())
      ↔ (lowercased "IoT").data <:+: (lowercased "Home-IoT-42").data) :=
  C7_iot_verification_containment Platform.ios envContainsIoT "IoT" false
    "Home-IoT-42" rfl rfl

/-- C7 counterexample: the observed identity "Home-IoT-42" does not start
with "IoT" under case-insensitive comparison, yet the IoT connect
verification accepts it - acceptance is containment, not a prefix
match. -/
theorem C7_counterexample :
    (connectToIoTNetworkV2 Platform.ios envContainsIoT "IoT" true
      false).outcome = Except.ok ()
    ∧ hasPrefixStr (lowercased "Home-IoT-42") (lowercased "IoT")
        = false :=
  ⟨rfl, by decide⟩

/-- C9 (confirmed): disconnectFromIoTNetwork always resolves for the
caller, in both revisions, whatever the results of the underlying
unbind, disconnect, identity-fetch and configuration-removal calls
(each possibly throwing, all caught). -/
theorem C9_disconnect_always_resolves (p : Platform) (env : NativeEnv)
    (bound0 : Bool) :
    (disconnectFromIoTNetworkV1 p env bound0).outcome = Except.ok ()
    ∧ (disconnectFromIoTNetworkV2 p env bound0).outcome = Except.ok () := by
  cases p <;> exact ⟨rfl, rfl⟩

end RNWifi
